import Mathlib

/-!
Verification of the Shopee listing-generator app (src/app.py).

The app is a single linear procedure: an input collector (API key field with a
secrets-provided default, a single-file image uploader, a market selector, an
optional audience field, a submit button) and a request/stream relay that
builds one multimodal request, sends it with a search tool and a fixed system
instruction, and appends streamed text fragments to a display buffer.

This file shallowly embeds that procedure: the widget values arriving at the
submit handler become explicit parameters, the outbound request becomes a
`Request` value, and the streaming loop becomes a fold over the list of events
(text chunks, possibly terminated by a raised exception) delivered by the
provider stream.
-/

namespace SHApp

/-- An uploaded image as the handler sees it: raw bytes (`getvalue()`),
declared MIME type (`uploaded_file.type`), original filename. -/
structure UploadedImage where
  data : List Nat
  mime : String
  name : String
deriving DecidableEq, Repr

/-- A part of the outbound request: `types.Part.from_bytes` or
`types.Part.from_text` (src/app.py lines 120-121). -/
inductive Part where
  | inlineData (data : List Nat) (mimeType : String)
  | text (s : String)
deriving DecidableEq, Repr

/-- `types.Content(role=..., parts=...)` (src/app.py line 117). -/
structure Content where
  role : String
  parts : List Part
deriving DecidableEq, Repr

/-- The only tool the app ever configures: `types.Tool(google_search=types.GoogleSearch())`
(src/app.py line 126). -/
inductive Tool where
  | googleSearch
deriving DecidableEq, Repr

/-- `types.GenerateContentConfig(tools=..., system_instruction=...)`
(src/app.py lines 125-144). -/
structure GenerateContentConfig where
  tools : List Tool
  systemInstruction : String
deriving DecidableEq, Repr

/-- The outbound call `client.models.generate_content_stream(model=..., contents=..., config=...)`
(src/app.py lines 112-145). -/
structure Request where
  model : String
  contents : List Content
  config : GenerateContentConfig
deriving DecidableEq, Repr

/-- The f-string `user_prompt` (src/app.py lines 92-101), with the exact
whitespace of the triple-quoted literal.  The audience falls back to the
literal 通用受众 ("generic audience") when the field is empty, mirroring
Python string truthiness in `target_audience if target_audience else "通用受众"`. -/
def userPrompt (target_country target_audience : String) : String :=
  "\n            这是我的产品图片。\n            目标站点：【" ++ target_country ++
  "】\n            目标受众：【" ++ (if target_audience = "" then "通用受众" else target_audience) ++
  "】\n            \n            请严格按照 System Instruction 的流程进行：\n            1. 视觉诊断\n            2. 联网搜索痛点 (必须使用 Google Search)\n            3. 撰写 Listing\n            "

/-- The hardcoded `system_instruction` triple-quoted literal
(src/app.py lines 127-143), with its exact whitespace. -/
def sysInstruction : String :=
  "\n                    角色设定：\n                    你是一位拥有10年经验的Shopee跨境电商运营专家，精通东南亚及拉美市场的消费心理。\n\n                    核心任务：\n                    当用户上传一张产品图片并指定“目标国家”时，请严格执行以下工作流：\n\n                    1. 【视觉诊断】：\n                       - 识别图片中的产品细节（材质、功能、使用场景）。\n                       - 判断该产品的核心卖点。\n\n                    2. 【痛点挖掘（必须调用 Google Search）】：\n                       - 必须使用 Google Search 搜索该品类在“目标国家”的常见差评、用户抱怨点或因当地气候/文化导致的特殊需求。\n\n                    3. 【Listing 生成】：\n                       - 结合视觉卖点和搜索到的痛点，撰写高转化的 Listing（标题+五点描述）。\n                    "

/-- The fixed config of every outbound request: the search tool list and the
hardcoded system instruction (src/app.py lines 125-144). -/
def fixedConfig : GenerateContentConfig :=
  { tools := [Tool.googleSearch], systemInstruction := sysInstruction }

/-- The request built at src/app.py lines 112-145: one user `Content` whose
parts are the inlined image bytes tagged with the upload MIME type, followed
by the synthesized text prompt. -/
def buildRequest (f : UploadedImage) (target_country target_audience : String) : Request :=
  { model := "gemini-2.0-flash-thinking-exp-1219"
    contents := [ { role := "user"
                    parts := [ Part.inlineData f.data f.mime,
                               Part.text (userPrompt target_country target_audience) ] } ]
    config := fixedConfig }

/-- Outcome of the submit handler before/at the outbound call: validation can
stop with `st.error` (missing key, src/app.py lines 73-75) or `st.warning`
(no image, lines 77-79), carrying the exact user-visible message; otherwise
the provider is called with the built request (lines 84-145). -/
inductive HandlerResult where
  | stoppedMissingKey (errorShown : String)
  | stoppedNoImage (warningShown : String)
  | called (req : Request)
deriving DecidableEq, Repr

/-- The `if generate_btn:` handler body up to the outbound call
(src/app.py lines 72-145).  `api_key` is the resolved credential string,
`uploaded_file` is `none` when no file is in the uploader (Python `None` is
falsy, as is the empty key string). -/
def generateBtnHandler (api_key : String) (uploaded_file : Option UploadedImage)
    (target_country target_audience : String) : HandlerResult :=
  if api_key = "" then
    HandlerResult.stoppedMissingKey "请先在左侧侧边栏输入 Google API Key！"
  else
    match uploaded_file with
    | none => HandlerResult.stoppedNoImage "请先上传一张产品图片！"
    | some f => HandlerResult.called (buildRequest f target_country target_audience)

/-- Whether the handler outcome issued the outbound provider call. -/
def isCalled : HandlerResult → Bool
  | HandlerResult.called _ => true
  | _ => false

/-- Whether the handler outcome stopped at a user-visible validation message
(`st.error` or `st.warning` followed by `st.stop`). -/
def isValidationStop : HandlerResult → Bool
  | HandlerResult.called _ => false
  | _ => true

/-- The ordered image sequence of a submit: `st.file_uploader` at src/app.py
line 47 holds at most one file, so the sequence is `uploaded_file` viewed as a
list of length 0 or 1. -/
def uploadedImages (uploaded_file : Option UploadedImage) : List UploadedImage :=
  uploaded_file.toList

/-- All parts of a request, in order (the app builds a single `Content`). -/
def requestParts (r : Request) : List Part :=
  (r.contents.map Content.parts).flatten

/-- Whether a part is an inlined binary image part. -/
def isInlinePart : Part → Bool
  | Part.inlineData _ _ => true
  | Part.text _ => false

/-- `st.secrets.get("GEMINI_API_KEY", "")` (src/app.py line 25): lookup with
a default for a missing key. -/
def secretsGet (secrets : List (String × String)) (key default : String) : String :=
  match secrets.lookup key with
  | some v => v
  | none => default

/-- Modelled behavior of the `st.text_input` widget (src/app.py lines 21-26):
the widget's returned value is the text the user typed when the user has
edited the field (`typed = some t`, including clearing it, `t = ""`), and the
`value=` default otherwise. -/
def textInputValue (defaultValue : String) (typed : Option String) : String :=
  match typed with
  | some t => t
  | none => defaultValue

/-- The resolved `api_key` (src/app.py lines 21-26): the text-input value whose
default is the `GEMINI_API_KEY` secret (empty string when unset). -/
def resolvedApiKey (secrets : List (String × String)) (typed : Option String) : String :=
  textInputValue (secretsGet secrets "GEMINI_API_KEY" "") typed

/-- A streamed response chunk; `text` is `none` when the chunk has no text
field, mirroring Python `chunk.text` being `None`. -/
structure Chunk where
  text : Option String
deriving DecidableEq, Repr

/-- What the provider stream delivers, in order: text chunks, and possibly a
raised exception (from the call itself or from stream iteration) carrying
`str(e)`. -/
inductive StreamEvent where
  | chunk (c : Chunk)
  | raiseExc (msg : String)
deriving DecidableEq, Repr

/-- Display states of the status box: running / complete / error
(src/app.py lines 148, 155, 158). -/
inductive Status where
  | running
  | complete
  | error
deriving DecidableEq, Repr

/-- The state handed to the display surface when the handler finishes:
the accumulated `full_response` buffer, the successive strings pushed to
`response_placeholder.markdown`, the final status-box state, and the message
passed to `st.error` in the `except` branch (if any). -/
structure StreamedAnswer where
  buffer : String
  renders : List String
  status : Status
  errorShown : Option String
deriving DecidableEq, Repr

/-- The streaming loop and its epilogue (src/app.py lines 149-159), as a fold
over the delivered events starting from `full_response = buf` and the renders
pushed so far.  A chunk with truthy text is appended and the buffer-so-far is
re-rendered with the cursor marker ▌; falsy text (`None` or `""`) is skipped.
If the stream raises, the `except` branch flips the status box to error and
shows `st.error(f"运行出错: {str(e)}")`; nothing after the raise is consumed.
On normal exhaustion the final buffer is rendered without the marker and the
status box is marked complete. -/
def processEvents : List StreamEvent → String → List String → StreamedAnswer
  | [], buf, renders =>
      { buffer := buf, renders := renders ++ [buf],
        status := Status.complete, errorShown := none }
  | StreamEvent.chunk ⟨none⟩ :: rest, buf, renders =>
      processEvents rest buf renders
  | StreamEvent.chunk ⟨some s⟩ :: rest, buf, renders =>
      if s = "" then processEvents rest buf renders
      else processEvents rest (buf ++ s) (renders ++ [buf ++ s ++ "▌"])
  | StreamEvent.raiseExc msg :: _, buf, renders =>
      { buffer := buf, renders := renders,
        status := Status.error, errorShown := some ("运行出错: " ++ msg) }

/-- The whole streaming phase: `full_response = ""` (src/app.py line 108) and
an empty placeholder, then the loop. -/
def streamPhase (events : List StreamEvent) : StreamedAnswer :=
  processEvents events "" []

/-- Concatenation of a list of strings, in order. -/
def concatStrings : List String → String
  | [] => ""
  | s :: rest => s ++ concatStrings rest

/-- The text carried by a chunk, reading an absent text field as empty. -/
def chunkText : Chunk → String
  | ⟨some s⟩ => s
  | ⟨none⟩ => ""

/-- Python truthiness of `chunk.text`: present and non-empty. -/
def hasText : Chunk → Bool
  | ⟨some s⟩ => !(s == "")
  | ⟨none⟩ => false

/-- Concatenation of the texts of a chunk list, in arrival order. -/
def concatChunkTexts (chunks : List Chunk) : String :=
  concatStrings (chunks.map chunkText)

/-- The renders the loop pushes while consuming `chunks` with buffer `buf`:
one buffer-so-far-plus-marker render per truthy chunk. -/
def expectedRenders (buf : String) : List Chunk → List String
  | [] => []
  | ⟨none⟩ :: rest => expectedRenders buf rest
  | ⟨some s⟩ :: rest =>
      if s = "" then expectedRenders buf rest
      else (buf ++ s ++ "▌") :: expectedRenders (buf ++ s) rest

/-- A concrete image used to instantiate hypotheses of the theorems below. -/
def sampleImage : UploadedImage :=
  { data := [137, 80, 78, 71], mime := "image/png", name := "product.png" }

/-! ## Helper lemmas -/

/-- The handler reaches the outbound call only when the key is non-empty and a
file is uploaded, and then the request is exactly `buildRequest`. -/
theorem handler_called_elim {k tc ta : String} {f : Option UploadedImage} {req : Request}
    (h : generateBtnHandler k f tc ta = HandlerResult.called req) :
    k ≠ "" ∧ ∃ img, f = some img ∧ req = buildRequest img tc ta := by
  unfold generateBtnHandler at h
  by_cases hk : k = ""
  · rw [if_pos hk] at h
    simp at h
  · rw [if_neg hk] at h
    refine ⟨hk, ?_⟩
    cases f with
    | none => simp at h
    | some img =>
        refine ⟨img, rfl, ?_⟩
        injection h with h
        exact h.symm

/-- `userPrompt` with an empty audience, split around the audience field. -/
theorem userPrompt_empty_audience (tc : String) :
    userPrompt tc "" =
      ("\n            这是我的产品图片。\n            目标站点：【" ++ tc ++ "】\n            ") ++
        ("目标受众：【通用受众】" ++
          "\n            \n            请严格按照 System Instruction 的流程进行：\n            1. 视觉诊断\n            2. 联网搜索痛点 (必须使用 Google Search)\n            3. 撰写 Listing\n            ") := by
  unfold userPrompt
  rw [if_pos rfl]
  simp only [String.append_assoc]
  congr 1

/-- Running the loop over exception-free chunk events: the buffer grows by the
concatenated texts, one marker render per truthy chunk, a final markerless
render, status complete. -/
theorem processEvents_chunks (chunks : List Chunk) (buf : String) (renders : List String) :
    processEvents (chunks.map StreamEvent.chunk) buf renders =
      { buffer := buf ++ concatChunkTexts chunks,
        renders := renders ++ (expectedRenders buf chunks ++ [buf ++ concatChunkTexts chunks]),
        status := Status.complete, errorShown := none } := by
  induction chunks generalizing buf renders with
  | nil =>
      simp [processEvents, concatChunkTexts, concatStrings, expectedRenders]
  | cons c cs ih =>
      obtain ⟨t⟩ := c
      cases t with
      | none =>
          simp [processEvents, ih, concatChunkTexts, concatStrings, chunkText, expectedRenders]
      | some s =>
          by_cases hs : s = ""
          · subst hs
            simp [processEvents, ih, concatChunkTexts, concatStrings, chunkText,
              expectedRenders]
          · simp [processEvents, hs, ih, concatChunkTexts, concatStrings, chunkText,
              expectedRenders, String.append_assoc, List.append_assoc]

/-- Running the loop over chunk events followed by a raised exception: the
remainder is not consumed, the buffer keeps the prefix texts, no final
markerless render is pushed, the status box errors and `st.error` shows the
prefixed exception string. -/
theorem processEvents_raise (chunks : List Chunk) (msg : String) (rest : List StreamEvent)
    (buf : String) (renders : List String) :
    processEvents (chunks.map StreamEvent.chunk ++ StreamEvent.raiseExc msg :: rest) buf renders =
      { buffer := buf ++ concatChunkTexts chunks,
        renders := renders ++ expectedRenders buf chunks,
        status := Status.error,
        errorShown := some ("运行出错: " ++ msg) } := by
  induction chunks generalizing buf renders with
  | nil =>
      simp [processEvents, concatChunkTexts, concatStrings, expectedRenders]
  | cons c cs ih =>
      obtain ⟨t⟩ := c
      cases t with
      | none =>
          simp [processEvents, ih, concatChunkTexts, concatStrings, chunkText, expectedRenders]
      | some s =>
          by_cases hs : s = ""
          · subst hs
            simp [processEvents, ih, concatChunkTexts, concatStrings, chunkText,
              expectedRenders]
          · simp [processEvents, hs, ih, concatChunkTexts, concatStrings, chunkText,
              expectedRenders, String.append_assoc, List.append_assoc]

/-- The concatenated texts of a chunk list are the concatenated texts of its
truthy chunks only. -/
theorem concatChunkTexts_filter (chunks : List Chunk) :
    concatChunkTexts chunks = concatStrings ((chunks.filter hasText).map chunkText) := by
  induction chunks with
  | nil => rfl
  | cons c cs ih =>
      obtain ⟨t⟩ := c
      cases t with
      | none =>
          have ht : hasText (⟨none⟩ : Chunk) = false := rfl
          simpa [concatChunkTexts, concatStrings, chunkText, List.filter_cons, ht] using ih
      | some s =>
          by_cases hs : s = ""
          · subst hs
            have ht : hasText (⟨some ""⟩ : Chunk) = false := rfl
            simpa [concatChunkTexts, concatStrings, chunkText, List.filter_cons, ht] using ih
          · have ht : hasText (⟨some s⟩ : Chunk) = true := by simp [hasText, hs]
            simp [concatChunkTexts, concatStrings, chunkText, List.filter_cons, ht] at ih ⊢
            rw [ih]

/-- One marker render is pushed per truthy chunk. -/
theorem expectedRenders_length (buf : String) (chunks : List Chunk) :
    (expectedRenders buf chunks).length = (chunks.filter hasText).length := by
  induction chunks generalizing buf with
  | nil => rfl
  | cons c cs ih =>
      obtain ⟨t⟩ := c
      cases t with
      | none =>
          have ht : hasText (⟨none⟩ : Chunk) = false := rfl
          simpa [expectedRenders, List.filter_cons, ht] using ih buf
      | some s =>
          by_cases hs : s = ""
          · subst hs
            have ht : hasText (⟨some ""⟩ : Chunk) = false := rfl
            simpa [expectedRenders, List.filter_cons, ht] using ih buf
          · have ht : hasText (⟨some s⟩ : Chunk) = true := by simp [hasText, hs]
            simp [expectedRenders, hs, List.filter_cons, ht, ih]

/-! ## Claim theorems -/

/-- C1: every submitted request with N uploaded images contains exactly N
inlined binary parts, in original upload order, each tagged with the MIME
type declared for its source image, followed by exactly one text part, so the
parts list has length N+1 with the text part last. -/
theorem C1_request_shape (k tc ta : String) (f : Option UploadedImage) (req : Request)
    (h : generateBtnHandler k f tc ta = HandlerResult.called req) :
    requestParts req =
      (uploadedImages f).map (fun img => Part.inlineData img.data img.mime) ++
        [Part.text (userPrompt tc ta)] ∧
    ((requestParts req).filter isInlinePart).length = (uploadedImages f).length ∧
    (requestParts req).length = (uploadedImages f).length + 1 := by
  obtain ⟨-, img, hf, hreq⟩ := handler_called_elim h
  subst hf
  subst hreq
  exact ⟨rfl, rfl, rfl⟩

/-- C1 witness: the theorem applied to a concrete submit with one image. -/
theorem C1_request_shape_witness :
    requestParts (buildRequest sampleImage "越南 (Vietnam)" "宝妈") =
      (uploadedImages (some sampleImage)).map (fun img => Part.inlineData img.data img.mime) ++
        [Part.text (userPrompt "越南 (Vietnam)" "宝妈")] ∧
    ((requestParts (buildRequest sampleImage "越南 (Vietnam)" "宝妈")).filter
        isInlinePart).length = (uploadedImages (some sampleImage)).length ∧
    (requestParts (buildRequest sampleImage "越南 (Vietnam)" "宝妈")).length =
      (uploadedImages (some sampleImage)).length + 1 :=
  C1_request_shape "key-123" "越南 (Vietnam)" "宝妈" (some sampleImage) _ rfl

/-- C2: submitting with an empty credential signals the missing-key validation
error and never issues an outbound call, regardless of the image state. -/
theorem C2_empty_key_blocks (f : Option UploadedImage) (tc ta : String) :
    generateBtnHandler "" f tc ta =
      HandlerResult.stoppedMissingKey "请先在左侧侧边栏输入 Google API Key！" ∧
    isCalled (generateBtnHandler "" f tc ta) = false := by
  exact ⟨rfl, rfl⟩

/-- C3: submitting with zero images never issues an outbound call, regardless
of the credential; with a non-empty credential the handler stops at the
no-image validation warning. -/
theorem C3_no_image_blocks (k tc ta : String) :
    isCalled (generateBtnHandler k none tc ta) = false ∧
    isValidationStop (generateBtnHandler k none tc ta) = true ∧
    (k ≠ "" → generateBtnHandler k none tc ta =
      HandlerResult.stoppedNoImage "请先上传一张产品图片！") := by
  refine ⟨?_, ?_, ?_⟩
  · by_cases hk : k = ""
    · subst hk
      rfl
    · unfold generateBtnHandler
      rw [if_neg hk]
      rfl
  · by_cases hk : k = ""
    · subst hk
      rfl
    · unfold generateBtnHandler
      rw [if_neg hk]
      rfl
  · intro hk
    unfold generateBtnHandler
    rw [if_neg hk]

/-- C3 witness: the theorem applied to a concrete non-empty credential. -/
theorem C3_no_image_blocks_witness :
    isCalled (generateBtnHandler "key-123" none "泰国 (Thailand)" "") = false ∧
    generateBtnHandler "key-123" none "泰国 (Thailand)" "" =
      HandlerResult.stoppedNoImage "请先上传一张产品图片！" :=
  ⟨(C3_no_image_blocks "key-123" "泰国 (Thailand)" "").1,
   (C3_no_image_blocks "key-123" "泰国 (Thailand)" "").2.2 (by decide)⟩

/-- C4: when the audience field is the empty string, the synthesized text part
of the issued request is the prompt whose audience field holds the literal
fallback 通用受众, never the empty audience value. -/
theorem C4_audience_fallback (k tc : String) (f : Option UploadedImage) (req : Request)
    (h : generateBtnHandler k f tc "" = HandlerResult.called req) :
    (requestParts req).getLast? = some (Part.text (userPrompt tc "")) ∧
    ∃ a b, userPrompt tc "" = a ++ ("目标受众：【通用受众】" ++ b) := by
  obtain ⟨-, img, hf, hreq⟩ := handler_called_elim h
  subst hreq
  exact ⟨by subst hf; rfl,
    "\n            这是我的产品图片。\n            目标站点：【" ++ tc ++ "】\n            ",
    "\n            \n            请严格按照 System Instruction 的流程进行：\n            1. 视觉诊断\n            2. 联网搜索痛点 (必须使用 Google Search)\n            3. 撰写 Listing\n            ",
    userPrompt_empty_audience tc⟩

/-- C4 witness: the theorem applied to a concrete submit with empty audience. -/
theorem C4_audience_fallback_witness :
    (requestParts (buildRequest sampleImage "越南 (Vietnam)" "")).getLast? =
      some (Part.text (userPrompt "越南 (Vietnam)" "")) ∧
    ∃ a b, userPrompt "越南 (Vietnam)" "" = a ++ ("目标受众：【通用受众】" ++ b) :=
  C4_audience_fallback "key-123" "越南 (Vietnam)" (some sampleImage) _ rfl

/-- C7 counterexample: with the secret configured and a different value typed
into the field, the resolved credential is the typed value, not the secret. -/
theorem C7_counterexample :
    resolvedApiKey [("GEMINI_API_KEY", "secret-key")] (some "typed-key") = "typed-key" ∧
    (("typed-key" : String) == "secret-key") = false :=
  ⟨rfl, rfl⟩

/-- C7 (amended): the configured secret is the field's default value — it is
the resolved credential exactly when the user has not edited the field; a
value typed into the field takes precedence over the secret. -/
theorem C7_amended_precedence (secrets : List (String × String)) (typed : Option String) :
    (typed = none → resolvedApiKey secrets typed = secretsGet secrets "GEMINI_API_KEY" "") ∧
    (∀ t, typed = some t → resolvedApiKey secrets typed = t) := by
  constructor
  · rintro rfl
    rfl
  · rintro t rfl
    rfl

/-- C7 witness: both precedence branches at concrete inputs. -/
theorem C7_amended_precedence_witness :
    resolvedApiKey [("GEMINI_API_KEY", "secret-key")] none = "secret-key" ∧
    resolvedApiKey [("GEMINI_API_KEY", "secret-key")] (some "typed-key") = "typed-key" :=
  ⟨(C7_amended_precedence [("GEMINI_API_KEY", "secret-key")] none).1 rfl,
   (C7_amended_precedence [("GEMINI_API_KEY", "secret-key")] (some "typed-key")).2
     "typed-key" rfl⟩

/-- C9: every issued request carries the fixed hardcoded system instruction
and has the search-grounding tool enabled, unconditionally. -/
theorem C9_fixed_config (k tc ta : String) (f : Option UploadedImage) (req : Request)
    (h : generateBtnHandler k f tc ta = HandlerResult.called req) :
    req.config = fixedConfig ∧
    req.config.tools = [Tool.googleSearch] ∧
    req.config.systemInstruction = sysInstruction := by
  obtain ⟨-, img, -, hreq⟩ := handler_called_elim h
  subst hreq
  exact ⟨rfl, rfl, rfl⟩

/-- C9 witness: the theorem applied to a concrete submit. -/
theorem C9_fixed_config_witness :
    (buildRequest sampleImage "巴西 (Brazil)" "大学生").config = fixedConfig ∧
    (buildRequest sampleImage "巴西 (Brazil)" "大学生").config.tools = [Tool.googleSearch] ∧
    (buildRequest sampleImage "巴西 (Brazil)" "大学生").config.systemInstruction =
      sysInstruction :=
  C9_fixed_config "key-123" "巴西 (Brazil)" "大学生" (some sampleImage) _ rfl

/-- C5: when the stream ends without an exception, the final buffer equals the
concatenation of all delivered fragments in arrival order, the status is
complete, and the last render pushed to the display is the buffer itself,
without the transient cursor marker. -/
theorem C5_stream_completion (chunks : List Chunk) :
    (streamPhase (chunks.map StreamEvent.chunk)).buffer = concatChunkTexts chunks ∧
    (streamPhase (chunks.map StreamEvent.chunk)).status = Status.complete ∧
    (streamPhase (chunks.map StreamEvent.chunk)).renders.getLast? =
      some (concatChunkTexts chunks) ∧
    (streamPhase (chunks.map StreamEvent.chunk)).errorShown = none := by
  unfold streamPhase
  rw [processEvents_chunks]
  refine ⟨String.empty_append _, rfl, ?_, rfl⟩
  simp [List.getLast?_concat, String.empty_append]

/-- C6: when the stream raises after a prefix of fragments has been consumed,
the status transitions to the errored state and the buffer retains exactly
the fragments appended before the failure; nothing after the raise is
consumed and no further render is pushed. -/
theorem C6_error_midstream (pre : List Chunk) (msg : String) (rest : List StreamEvent) :
    (streamPhase (pre.map StreamEvent.chunk ++ StreamEvent.raiseExc msg :: rest)).status =
      Status.error ∧
    (streamPhase (pre.map StreamEvent.chunk ++ StreamEvent.raiseExc msg :: rest)).buffer =
      concatChunkTexts pre ∧
    (streamPhase (pre.map StreamEvent.chunk ++ StreamEvent.raiseExc msg :: rest)).renders =
      expectedRenders "" pre ∧
    (streamPhase (pre.map StreamEvent.chunk ++ StreamEvent.raiseExc msg :: rest)).errorShown =
      some ("运行出错: " ++ msg) := by
  unfold streamPhase
  rw [processEvents_raise]
  exact ⟨rfl, String.empty_append _, List.nil_append _, rfl⟩

/-- C8 counterexample: the displayed error message is the fixed prefix
运行出错: followed by str(e), so it is not exactly str(e). -/
theorem C8_counterexample :
    (streamPhase [StreamEvent.raiseExc "boom"]).errorShown = some "运行出错: boom" ∧
    (("运行出错: boom" : String) == "boom") = false :=
  ⟨rfl, rfl⟩

/-- C8 (amended): for every exception raised by the call or stream iteration,
the message shown to the user is exactly the fixed label 运行出错: followed
by the exception's string representation, with no classification or remapping
of provider error codes. -/
theorem C8_error_message_verbatim (pre : List Chunk) (msg : String) (rest : List StreamEvent) :
    (streamPhase (pre.map StreamEvent.chunk ++ StreamEvent.raiseExc msg :: rest)).errorShown =
      some ("运行出错: " ++ msg) ∧
    (streamPhase (pre.map StreamEvent.chunk ++ StreamEvent.raiseExc msg :: rest)).status =
      Status.error := by
  unfold streamPhase
  rw [processEvents_raise]
  exact ⟨rfl, rfl⟩

/-- C10: a chunk whose text is absent or empty is silently skipped — it is
neither appended to the buffer nor does it push a render — so the final
buffer is the concatenation of only the truthy text fragments in arrival
order, and the number of mid-stream renders equals the number of truthy
chunks. -/
theorem C10_falsy_chunks_skipped (chunks : List Chunk) :
    (streamPhase (chunks.map StreamEvent.chunk)).buffer =
      concatStrings ((chunks.filter hasText).map chunkText) ∧
    (streamPhase (chunks.map StreamEvent.chunk)).renders.length =
      (chunks.filter hasText).length + 1 := by
  unfold streamPhase
  rw [processEvents_chunks]
  constructor
  · rw [String.empty_append]
    exact concatChunkTexts_filter chunks
  · simp [expectedRenders_length]

end SHApp
